import Mathlib

/-!
Shallow embedding of the demo-py-agent CRUD service core:
domain entities (`src/domain/entities`), the JWT token service and SQLite
auth repository (`src/infrastructure/auth`), the SQLite position/employee
repositories (`src/infrastructure/database`), the use cases
(`src/application/use_cases`) and the controller-level error mapping
(`src/interface/controllers`, `src/interface/dependencies`).

UUIDs are modelled as `Nat` identifiers (`uuid4()` becomes an explicit
fresh-id argument), wall-clock instants as `Nat` seconds, and each SQLite
table as a `List` in insertion order; `SELECT ... WHERE k = ?` is
`List.find?`, `DELETE` is `List.filter`, `UPDATE` is `List.map`, and the
`total_changes > 0` check is `List.any`.  Exceptions become `Except`
values threaded together with the explicit database state.
-/

namespace DemoPy

/-! ## Domain entities (src/domain/entities/__init__.py) -/

/-- `Position` dataclass: `position_id`, `position_name`. -/
structure Position where
  position_id : Nat
  position_name : String
  deriving Repr, DecidableEq

/-- `Employee` dataclass: `emp_id`, `name`, `position_id` (the optional
embedded `position` field is never set by the code paths modelled here). -/
structure Employee where
  emp_id : Nat
  name : String
  position_id : Nat
  deriving Repr, DecidableEq

/-- Python truthiness test `not s or not s.strip()` used by both
`__post_init__` validators: it holds exactly when every character of `s`
is whitespace — in particular when `s` is empty. -/
def isBlank (s : String) : Bool :=
  s.data.all (fun c => c.isWhitespace)

/-- `Position.__post_init__`: raises `ValueError("Position name cannot be
empty")` when `not self.position_name or not self.position_name.strip()`.
Construction is modelled as `Except` with the Python exception message. -/
def mkPosition (position_id : Nat) (position_name : String) : Except String Position :=
  if isBlank position_name then
    .error "Position name cannot be empty"
  else
    .ok { position_id := position_id, position_name := position_name }

/-- `Employee.__post_init__`: raises `ValueError("Employee name cannot be
empty")` when `not self.name or not self.name.strip()`. -/
def mkEmployee (emp_id : Nat) (name : String) (position_id : Nat) :
    Except String Employee :=
  if isBlank name then
    .error "Employee name cannot be empty"
  else
    .ok { emp_id := emp_id, name := name, position_id := position_id }

/-! ## DTOs (src/application/dtos/__init__.py) -/

/-- `EmployeeCreateDTO`: `name` (pydantic `min_length=1, max_length=100`),
`position_id`. -/
structure EmployeeCreateDTO where
  name : String
  position_id : Nat
  deriving Repr, DecidableEq

/-- Pydantic field constraint on `EmployeeCreateDTO.name`:
`min_length=1, max_length=100`. -/
def EmployeeCreateDTO.valid (dto : EmployeeCreateDTO) : Prop :=
  1 ≤ dto.name.length ∧ dto.name.length ≤ 100

/-- `EmployeeUpdateDTO`: both fields optional. -/
structure EmployeeUpdateDTO where
  name : Option String
  position_id : Option Nat
  deriving Repr, DecidableEq

/-- `EmployeeResponseDTO`: employee row enriched with an optional
`position_name`. -/
structure EmployeeResponseDTO where
  emp_id : Nat
  name : String
  position_id : Nat
  position_name : Option String
  deriving Repr, DecidableEq

/-- `PositionCreateDTO`: `position_name` (pydantic `min_length=1,
max_length=100`). -/
structure PositionCreateDTO where
  position_name : String
  deriving Repr, DecidableEq

/-- Pydantic field constraint on `PositionCreateDTO.position_name`. -/
def PositionCreateDTO.valid (dto : PositionCreateDTO) : Prop :=
  1 ≤ dto.position_name.length ∧ dto.position_name.length ≤ 100

/-- `PositionResponseDTO`. -/
structure PositionResponseDTO where
  position_id : Nat
  position_name : String
  deriving Repr, DecidableEq

/-! ## JWT token service (src/infrastructure/auth/__init__.py, JWTService)

The `python-jose` calls are modelled at the level of their documented
contract: `jwt.encode` produces a token carrying its claims and a
signature determined by the signing key, and `jwt.decode` succeeds
exactly when the signature was made with the same key and the `exp`
claim has not passed (raising `JWTError` otherwise, which
`verify_token` turns into `None`).  The service always uses the single
HS256 algorithm, so the algorithm parameter is not represented. -/

/-- The claim set the service puts in a token: the `sub` claim (may be
absent) and the absolute `exp` timestamp in seconds. -/
structure JwtPayload where
  sub : Option String
  exp : Nat
  deriving Repr, DecidableEq

/-- A signed token: its payload together with the key that signed it
(standing in for the HMAC signature). -/
structure Jwt where
  payload : JwtPayload
  sigKey : String
  deriving Repr, DecidableEq

/-- `jose.jwt.encode(to_encode, key, algorithm)`. -/
def jwtEncode (payload : JwtPayload) (key : String) : Jwt :=
  { payload := payload, sigKey := key }

/-- `jose.jwt.decode(token, key, algorithms)`: raises (here: `none`) when
the signature does not match `key` or the `exp` claim is in the past. -/
def jwtDecode (t : Jwt) (key : String) (now : Nat) : Option JwtPayload :=
  if t.sigKey = key then
    if t.payload.exp < now then none else some t.payload
  else none

/-- `JWTService.create_access_token({"sub": subject}, expires_delta)`:
expiry is `now + expires_delta` or `now + 24h` by default. -/
def create_access_token (key : String) (sub : Option String) (now : Nat)
    (expires_delta : Option Nat) : Jwt :=
  let expire := now + expires_delta.getD 86400
  jwtEncode { sub := sub, exp := expire } key

/-- `JWTService.verify_token`: `jwt.decode` with the `JWTError` handler
returning `None`. -/
def verify_token (key : String) (t : Jwt) (now : Nat) : Option JwtPayload :=
  jwtDecode t key now

/-- `TokenResponseDTO`: `access_token` plus constant `token_type`. -/
structure TokenResponseDTO where
  access_token : Jwt
  token_type : String := "bearer"
  deriving Repr, DecidableEq

/-- An HTTP-level failure: status code and detail string. -/
structure HttpError where
  status_code : Nat
  detail : String
  deriving Repr, DecidableEq

/-- `get_current_user` (src/interface/dependencies/__init__.py): decodes
the bearer token, rejects with 401 when decoding fails or the `sub` claim
is absent, otherwise yields the username. -/
def get_current_user (key : String) (t : Jwt) (now : Nat) :
    Except HttpError String :=
  match verify_token key t now with
  | none => .error { status_code := 401, detail := "Invalid authentication credentials" }
  | some payload =>
    match payload.sub with
    | none => .error { status_code := 401, detail := "Invalid authentication credentials" }
    | some username => .ok username

/-! ## SQLite database state (src/infrastructure/database/__init__.py)

The three tables created by `DatabaseConnection.initialize`:
`positions(position_id PK, position_name)`,
`employees(emp_id PK, name, position_id)`,
`users(id autoincrement PK, username UNIQUE, password_hash)`. -/

/-- A stored bcrypt hash: `bcrypt.hashpw(password, gensalt())`, modelled by
its generating salt and password; `bcrypt.checkpw` compares the candidate
password against the one the hash was derived from. -/
structure BcryptHash where
  salt : Nat
  pw : String
  deriving Repr, DecidableEq

/-- `bcrypt.hashpw(password.encode(), salt)` (SQLiteAuthRepository._hash_password). -/
def hashpw (password : String) (salt : Nat) : BcryptHash :=
  { salt := salt, pw := password }

/-- `bcrypt.checkpw(password.encode(), hashed.encode())`
(SQLiteAuthRepository._verify_password). -/
def checkpw (password : String) (hashed : BcryptHash) : Bool :=
  hashed.pw = password

/-- A row of the `users` table (the autoincrement `id` column is never
read by the code modelled here). -/
structure UserRow where
  username : String
  password_hash : BcryptHash
  deriving Repr, DecidableEq

/-- The persistent store: the three tables in insertion order. -/
structure DBState where
  positions : List Position
  employees : List Employee
  users : List UserRow
  deriving Repr, DecidableEq

/-! ## Repositories (src/infrastructure/database, src/infrastructure/auth) -/

/-- `SQLitePositionRepository.get_by_id`: `SELECT ... WHERE position_id = ?`,
first row or `None`. -/
def posGetById (s : DBState) (position_id : Nat) : Option Position :=
  s.positions.find? (fun p => p.position_id = position_id)

/-- `SQLitePositionRepository.create`: `INSERT INTO positions`. -/
def posCreate (s : DBState) (p : Position) : DBState :=
  { s with positions := s.positions ++ [p] }

/-- `SQLitePositionRepository.delete`: `DELETE FROM positions WHERE
position_id = ?`, returning `total_changes > 0`. -/
def posDelete (s : DBState) (position_id : Nat) : Bool × DBState :=
  (s.positions.any (fun p => p.position_id = position_id),
   { s with positions := s.positions.filter (fun p => ¬ p.position_id = position_id) })

/-- `SQLiteEmployeeRepository.get_by_id`. -/
def empGetById (s : DBState) (emp_id : Nat) : Option Employee :=
  s.employees.find? (fun e => e.emp_id = emp_id)

/-- `SQLiteEmployeeRepository.create`: `INSERT INTO employees`. -/
def empCreate (s : DBState) (e : Employee) : DBState :=
  { s with employees := s.employees ++ [e] }

/-- `SQLiteEmployeeRepository.update`: `UPDATE employees SET name = ?,
position_id = ? WHERE emp_id = ?`; returns the employee when
`total_changes > 0`, else `None`. -/
def empUpdate (s : DBState) (e : Employee) : Option Employee × DBState :=
  (if s.employees.any (fun x => x.emp_id = e.emp_id) then some e else none,
   { s with employees := s.employees.map (fun x =>
       if x.emp_id = e.emp_id then { x with name := e.name, position_id := e.position_id }
       else x) })

/-- `SQLiteEmployeeRepository.delete`. -/
def empDelete (s : DBState) (emp_id : Nat) : Bool × DBState :=
  (s.employees.any (fun e => e.emp_id = emp_id),
   { s with employees := s.employees.filter (fun e => ¬ e.emp_id = emp_id) })

/-- `SQLiteAuthRepository.create_user`: hashes the password, runs
`INSERT INTO users (username, password_hash)`; the `UNIQUE` constraint on
`username` raises `IntegrityError` when the username is already present,
and both that and the catch-all handler return `False` instead of
raising. -/
def create_user (s : DBState) (username password : String) (salt : Nat) :
    Bool × DBState :=
  if s.users.any (fun r => r.username = username) then
    (false, s)
  else
    (true, { s with users := s.users ++ [{ username := username,
                                           password_hash := hashpw password salt }] })

/-- `SQLiteAuthRepository.verify_user`: `SELECT password_hash FROM users
WHERE username = ?`; `False` when absent, else `bcrypt.checkpw`. -/
def verify_user (s : DBState) (username password : String) : Bool :=
  match s.users.find? (fun r => r.username = username) with
  | some row => checkpw password row.password_hash
  | none => false

/-! ## Use cases (src/application/use_cases/__init__.py)

`uuid4()` calls become explicit `freshId` arguments.  A raised
`ValueError` becomes `Except.error` carrying the Python message, paired
with the database state at the moment of the raise. -/

/-- `EmployeeUseCase.create_employee`: resolve the position (raise
`ValueError("Position not found")` when absent), construct the `Employee`
entity (its `__post_init__` may raise), insert it, and return the
response enriched with the resolved position's name. -/
def create_employee (s : DBState) (dto : EmployeeCreateDTO) (freshId : Nat) :
    Except String EmployeeResponseDTO × DBState :=
  match posGetById s dto.position_id with
  | none => (.error "Position not found", s)
  | some position =>
    match mkEmployee freshId dto.name dto.position_id with
    | .error e => (.error e, s)
    | .ok employee =>
      let s1 := empCreate s employee
      (.ok { emp_id := employee.emp_id, name := employee.name,
             position_id := employee.position_id,
             position_name := some position.position_name }, s1)

/-- `EmployeeUseCase.get_employee`: `None` on a miss; on a hit, a
best-effort position lookup fills `position_name`, left `None` when the
referenced position no longer exists. -/
def get_employee (s : DBState) (emp_id : Nat) : Option EmployeeResponseDTO :=
  match empGetById s emp_id with
  | none => none
  | some employee =>
    let position := posGetById s employee.position_id
    some { emp_id := employee.emp_id, name := employee.name,
           position_id := employee.position_id,
           position_name := position.map (fun p => p.position_name) }

/-- `EmployeeUseCase.update_employee`: `None` when the employee is absent;
`if dto.position_id:` (a present UUID is always truthy) resolves the new
position, raising `ValueError("Position not found")` on a miss;
`if dto.name:` (truthiness — `None` and `""` are both falsy) overwrites
the name; then the repository `UPDATE` runs and the result is enriched. -/
def update_employee (s : DBState) (emp_id : Nat) (dto : EmployeeUpdateDTO) :
    Except String (Option EmployeeResponseDTO) × DBState :=
  match empGetById s emp_id with
  | none => (.ok none, s)
  | some employee =>
    let step1 : Except String Employee :=
      match dto.position_id with
      | some pid =>
        match posGetById s pid with
        | none => .error "Position not found"
        | some _ => .ok { employee with position_id := pid }
      | none => .ok employee
    match step1 with
    | .error e => (.error e, s)
    | .ok employee1 =>
      let employee2 :=
        match dto.name with
        | some n => if n = "" then employee1 else { employee1 with name := n }
        | none => employee1
      match empUpdate s employee2 with
      | (none, s1) => (.ok none, s1)
      | (some updated, s1) =>
        let position := posGetById s1 updated.position_id
        (.ok (some { emp_id := updated.emp_id, name := updated.name,
                     position_id := updated.position_id,
                     position_name := position.map (fun p => p.position_name) }), s1)

/-- `EmployeeUseCase.delete_employee`: delegates to the repository. -/
def delete_employee (s : DBState) (emp_id : Nat) : Bool × DBState :=
  empDelete s emp_id

/-- `PositionUseCase.create_position`: constructs the `Position` entity
(whose `__post_init__` may raise `ValueError`), inserts it and returns
the response DTO. -/
def create_position (s : DBState) (dto : PositionCreateDTO) (freshId : Nat) :
    Except String PositionResponseDTO × DBState :=
  match mkPosition freshId dto.position_name with
  | .error e => (.error e, s)
  | .ok position =>
    let s1 := posCreate s position
    (.ok { position_id := position.position_id,
           position_name := position.position_name }, s1)

/-- `PositionUseCase.delete_position`: delegates to the repository. -/
def delete_position (s : DBState) (position_id : Nat) : Bool × DBState :=
  posDelete s position_id

/-- `AuthUseCase.login`: `verify_user`, then
`create_access_token({"sub": username})` on success, `None` on failure. -/
def login (s : DBState) (username password : String) (key : String) (now : Nat) :
    Option TokenResponseDTO :=
  if verify_user s username password then
    some { access_token := create_access_token key (some username) now none }
  else none

/-- `AuthUseCase.create_user`: delegates to the repository. -/
def auth_create_user (s : DBState) (username password : String) (salt : Nat) :
    Bool × DBState :=
  create_user s username password salt

/-! ## Controller layer (src/interface/controllers)

What a route handler hands back to the framework: a response with a
status code, an `HTTPException` it raised, or an exception it let
escape (which FastAPI turns into a 500 server fault). -/

/-- Outcome of one route invocation. -/
inductive ControllerOutcome (α : Type) where
  | response (status_code : Nat) (body : α)
  | httpError (e : HttpError)
  | unhandled (msg : String)
  deriving Repr, DecidableEq

/-- `employee_controller.create_employee`: wraps the use case in
`try/except ValueError`, mapping the error to HTTP 400; success is 201. -/
def employeeCreateController (s : DBState) (dto : EmployeeCreateDTO)
    (freshId : Nat) : ControllerOutcome EmployeeResponseDTO × DBState :=
  match create_employee s dto freshId with
  | (.error e, s1) => (.httpError { status_code := 400, detail := e }, s1)
  | (.ok r, s1) => (.response 201 r, s1)

/-- `position_controller.create_position`: calls the use case with NO
`try/except`, so a `ValueError` raised by `Position.__post_init__`
escapes the handler unhandled. -/
def positionCreateController (s : DBState) (dto : PositionCreateDTO)
    (freshId : Nat) : ControllerOutcome PositionResponseDTO × DBState :=
  match create_position s dto freshId with
  | (.error e, s1) => (.unhandled e, s1)
  | (.ok r, s1) => (.response 201 r, s1)

/-- `auth_controller.register`: 201 on success, HTTP 400 when
`create_user` returns `False`. -/
def registerController (s : DBState) (username password : String) (salt : Nat) :
    ControllerOutcome String × DBState :=
  match auth_create_user s username password salt with
  | (true, s1) => (.response 201 "User created successfully", s1)
  | (false, s1) =>
    (.httpError { status_code := 400,
                  detail := "Username already exists or invalid data" }, s1)

/-- `auth_controller.login`: 200 with the token on success, HTTP 401 when
the use case returns `None`. -/
def loginController (s : DBState) (username password : String) (key : String)
    (now : Nat) : ControllerOutcome TokenResponseDTO :=
  match login s username password key now with
  | some token => .response 200 token
  | none => .httpError { status_code := 401, detail := "Invalid username or password" }

/-! ## Helper lemmas -/

theorem map_eq_self_of_forall {α : Type} (l : List α) (f : α → α)
    (h : ∀ x ∈ l, f x = x) : l.map f = l := by
  induction l with
  | nil => rfl
  | cons a t ih =>
    simp only [List.map_cons, h a (List.mem_cons_self a t)]
    rw [ih (fun x hx => h x (List.mem_cons_of_mem a hx))]

/-! ## Claims about the token service -/

/-- **C1.** Verifying a token immediately after issuing it for a subject
(default 24h ttl, same signing key) yields that subject; and any token
whose embedded expiry timestamp has passed verifies as invalid (a 401
rejection), never as a subject. -/
theorem issue_then_verify_roundtrip :
    (∀ (subject key : String) (now : Nat),
        get_current_user key (create_access_token key (some subject) now none) now
          = .ok subject) ∧
    (∀ (t : Jwt) (key : String) (now : Nat), t.payload.exp < now →
        get_current_user key t now
          = .error { status_code := 401,
                     detail := "Invalid authentication credentials" }) := by
  constructor
  · intro subject key now
    have hexp : ¬ now + 86400 < now := by omega
    simp [get_current_user, verify_token, jwtDecode, create_access_token, jwtEncode,
      hexp]
  · intro t key now h
    by_cases hk : t.sigKey = key
    · simp [get_current_user, verify_token, jwtDecode, hk, h]
    · simp [get_current_user, verify_token, jwtDecode, hk]

/-- Witness for `issue_then_verify_roundtrip` at concrete inputs. -/
theorem issue_then_verify_roundtrip_witness :
    get_current_user "k" (create_access_token "k" (some "alice") 0 none) 0
      = .ok "alice" ∧
    ((⟨⟨some "alice", 3⟩, "k"⟩ : Jwt).payload.exp < 4 ∧
      get_current_user "k" ⟨⟨some "alice", 3⟩, "k"⟩ 4
        = .error { status_code := 401,
                   detail := "Invalid authentication credentials" }) :=
  ⟨issue_then_verify_roundtrip.1 "alice" "k" 0,
   by decide,
   issue_then_verify_roundtrip.2 ⟨⟨some "alice", 3⟩, "k"⟩ "k" 4 (by decide)⟩

/-- **C5.** `verify` (token decode plus subject extraction) is a total
function of the token — it never raises — and rejects as invalid in
exactly three cases: the signature key does not match, the expiry has
passed, or the `sub` claim is absent; in every other case it returns the
embedded subject. -/
theorem verify_invalid_exactly_three_cases (key : String) (t : Jwt) (now : Nat) :
    (get_current_user key t now
        = .error { status_code := 401,
                   detail := "Invalid authentication credentials" }
      ↔ (¬ t.sigKey = key ∨ t.payload.exp < now ∨ t.payload.sub = none)) ∧
    (∀ s, get_current_user key t now = .ok s
      ↔ (t.sigKey = key ∧ ¬ t.payload.exp < now ∧ t.payload.sub = some s)) := by
  by_cases hk : t.sigKey = key
  · by_cases he : t.payload.exp < now
    · simp [get_current_user, verify_token, jwtDecode, hk, he]
    · cases hs : t.payload.sub with
      | none => simp [get_current_user, verify_token, jwtDecode, hk, he, hs]
      | some u => simp [get_current_user, verify_token, jwtDecode, hk, he, hs]
  · simp [get_current_user, verify_token, jwtDecode, hk]

/-- Witness for `verify_invalid_exactly_three_cases`: a token with no
`sub` claim is rejected. -/
theorem verify_invalid_exactly_three_cases_witness :
    get_current_user "k" ⟨⟨none, 100⟩, "k"⟩ 0
      = .error { status_code := 401,
                 detail := "Invalid authentication credentials" } :=
  (verify_invalid_exactly_three_cases "k" ⟨⟨none, 100⟩, "k"⟩ 0).1.mpr
    (Or.inr (Or.inr rfl))

/-! ## Claims about employee creation -/

/-- **C2.** Creating an employee whose `position_id` does not reference an
existing position raises `ValueError("Position not found")` — mapped by
the controller to HTTP 400 — and leaves the whole store unchanged: no
employee row is persisted, not even partially. -/
theorem create_employee_missing_position (s : DBState) (dto : EmployeeCreateDTO)
    (freshId : Nat) (h : posGetById s dto.position_id = none) :
    create_employee s dto freshId = (.error "Position not found", s) ∧
    employeeCreateController s dto freshId
      = (.httpError { status_code := 400, detail := "Position not found" }, s) := by
  have h1 : create_employee s dto freshId = (.error "Position not found", s) := by
    unfold create_employee
    rw [h]
  refine ⟨h1, ?_⟩
  unfold employeeCreateController
  rw [h1]

/-- Witness for `create_employee_missing_position` on an empty store. -/
theorem create_employee_missing_position_witness :
    posGetById ⟨[], [], []⟩ 5 = none ∧
    create_employee ⟨[], [], []⟩ ⟨"Bob", 5⟩ 1
      = (.error "Position not found", ⟨[], [], []⟩) ∧
    employeeCreateController ⟨[], [], []⟩ ⟨"Bob", 5⟩ 1
      = (.httpError { status_code := 400, detail := "Position not found" },
         ⟨[], [], []⟩) :=
  ⟨rfl, (create_employee_missing_position ⟨[], [], []⟩ ⟨"Bob", 5⟩ 1 rfl).1,
        (create_employee_missing_position ⟨[], [], []⟩ ⟨"Bob", 5⟩ 1 rfl).2⟩

/-- **C3.** For every valid employee name (request-level constraints hold
and the name is not blank) and every `position_id` resolving to an
existing position, `create_employee` succeeds, persists exactly that one
employee row, and the returned record's `position_name` equals the
position name currently stored for the referenced position. -/
theorem create_employee_returns_position_name (s : DBState)
    (dto : EmployeeCreateDTO) (freshId : Nat) (pos : Position)
    (hpos : posGetById s dto.position_id = some pos)
    (_hvalid : dto.valid) (hblank : isBlank dto.name = false) :
    create_employee s dto freshId
      = (.ok { emp_id := freshId, name := dto.name,
               position_id := dto.position_id,
               position_name := some pos.position_name },
         { s with employees :=
             s.employees ++ [⟨freshId, dto.name, dto.position_id⟩] }) := by
  unfold create_employee mkEmployee empCreate
  rw [hpos, hblank]
  simp

/-- Witness for `create_employee_returns_position_name`. -/
theorem create_employee_returns_position_name_witness :
    posGetById ⟨[⟨5, "Engineer"⟩], [], []⟩ 5 = some ⟨5, "Engineer"⟩ ∧
    EmployeeCreateDTO.valid ⟨"Bob", 5⟩ ∧
    isBlank "Bob" = false ∧
    create_employee ⟨[⟨5, "Engineer"⟩], [], []⟩ ⟨"Bob", 5⟩ 7
      = (.ok { emp_id := 7, name := "Bob", position_id := 5,
               position_name := some "Engineer" },
         ⟨[⟨5, "Engineer"⟩], [⟨7, "Bob", 5⟩], []⟩) :=
  ⟨rfl, ⟨by decide, by decide⟩, by decide,
   create_employee_returns_position_name ⟨[⟨5, "Engineer"⟩], [], []⟩ ⟨"Bob", 5⟩ 7
     ⟨5, "Engineer"⟩ rfl ⟨by decide, by decide⟩ (by decide)⟩

/-! ## Claim about position creation with a blank name -/

/-- **C4.** A whitespace-only position name — which satisfies the
request-level `min_length=1` constraint, so the request reaches the
handler — makes `Position.__post_init__` raise
`ValueError("Position name cannot be empty")`; no position is persisted,
but `position_controller.create_position` wraps the use case in no
`try/except`, so the failure escapes the handler unhandled (a server
fault) instead of being mapped to the HTTP 400 the error taxonomy
prescribes for validation failures. -/
theorem create_position_blank_name_unhandled (s : DBState) (freshId : Nat) :
    (1 ≤ (" " : String).length ∧ (" " : String).length ≤ 100) ∧
    create_position s ⟨" "⟩ freshId
      = (.error "Position name cannot be empty", s) ∧
    positionCreateController s ⟨" "⟩ freshId
      = (.unhandled "Position name cannot be empty", s) := by
  have hb : isBlank " " = true := by decide
  have hmk : mkPosition freshId " " = .error "Position name cannot be empty" := by
    simp [mkPosition, hb]
  have h1 : create_position s ⟨" "⟩ freshId
      = (.error "Position name cannot be empty", s) := by
    unfold create_position
    rw [hmk]
  refine ⟨⟨by decide, by decide⟩, h1, ?_⟩
  unfold positionCreateController
  rw [h1]

/-! ## Claims about registration and login -/

/-- **C6.** `create_user` is a total function (exceptions are caught and
turned into `False`): registering a fresh username succeeds, registering
it a second time — whatever the new password — hits the `UNIQUE`
constraint and returns `false`, the store is left exactly as after the
first call, and the first password still verifies for login afterwards. -/
theorem register_twice_second_fails (s : DBState) (u p1 p2 : String)
    (t1 t2 : Nat) (hfresh : ∀ r ∈ s.users, ¬ r.username = u) :
    (create_user s u p1 t1).1 = true ∧
    (create_user (create_user s u p1 t1).2 u p2 t2).1 = false ∧
    (create_user (create_user s u p1 t1).2 u p2 t2).2 = (create_user s u p1 t1).2 ∧
    verify_user (create_user (create_user s u p1 t1).2 u p2 t2).2 u p1 = true := by
  have hany : s.users.any (fun r => r.username = u) = false := by
    rw [List.any_eq_false]
    intro r hr
    simpa using hfresh r hr
  have hfindnone : s.users.find? (fun r => r.username = u) = none := by
    rw [List.find?_eq_none]
    intro r hr
    simpa using hfresh r hr
  have h1 : create_user s u p1 t1
      = (true, { s with users := s.users ++ [⟨u, hashpw p1 t1⟩] }) := by
    simp [create_user, hany]
  have hany2 : (s.users ++ [(⟨u, hashpw p1 t1⟩ : UserRow)]).any
      (fun r => r.username = u) = true := by
    rw [List.any_append, hany]
    simp
  have h2 : create_user { s with users := s.users ++ [⟨u, hashpw p1 t1⟩] } u p2 t2
      = (false, { s with users := s.users ++ [⟨u, hashpw p1 t1⟩] }) := by
    simp [create_user, hany2]
  have hv : verify_user { s with users := s.users ++ [⟨u, hashpw p1 t1⟩] } u p1
      = true := by
    simp [verify_user, List.find?_append, hfindnone, Option.none_or, checkpw, hashpw]
  rw [h1, h2]
  exact ⟨rfl, rfl, rfl, hv⟩

/-- Witness for `register_twice_second_fails`: registering `alice` twice
on an empty store. -/
theorem register_twice_second_fails_witness :
    (create_user ⟨[], [], []⟩ "alice" "secret1" 3).1 = true ∧
    (create_user (create_user ⟨[], [], []⟩ "alice" "secret1" 3).2
        "alice" "other2" 4).1 = false ∧
    verify_user (create_user (create_user ⟨[], [], []⟩ "alice" "secret1" 3).2
        "alice" "other2" 4).2 "alice" "secret1" = true :=
  ⟨(register_twice_second_fails ⟨[], [], []⟩ "alice" "secret1" "other2" 3 4
      (by simp)).1,
   (register_twice_second_fails ⟨[], [], []⟩ "alice" "secret1" "other2" 3 4
      (by simp)).2.1,
   (register_twice_second_fails ⟨[], [], []⟩ "alice" "secret1" "other2" 3 4
      (by simp)).2.2.2⟩

/-- **C7.** A login with an unknown username and a login with a registered
username but a wrong password both return `None` — each mapped by the
controller to the same HTTP 401 response — and the two failure outcomes
are equal, so nothing observable reveals whether the username existed. -/
theorem login_failures_indistinguishable (s : DBState) (u1 p1 u2 p2 key : String)
    (now1 now2 : Nat)
    (h1 : s.users.find? (fun r => r.username = u1) = none)
    (h2 : ∃ row, s.users.find? (fun r => r.username = u2) = some row ∧
          checkpw p2 row.password_hash = false) :
    login s u1 p1 key now1 = none ∧
    login s u2 p2 key now2 = none ∧
    login s u1 p1 key now1 = login s u2 p2 key now2 ∧
    loginController s u1 p1 key now1
      = .httpError { status_code := 401, detail := "Invalid username or password" } ∧
    loginController s u2 p2 key now2
      = .httpError { status_code := 401, detail := "Invalid username or password" } := by
  obtain ⟨row, hrow, hcheck⟩ := h2
  have hv1 : verify_user s u1 p1 = false := by
    unfold verify_user
    rw [h1]
  have hv2 : verify_user s u2 p2 = false := by
    unfold verify_user
    rw [hrow]
    exact hcheck
  have l1 : login s u1 p1 key now1 = none := by simp [login, hv1]
  have l2 : login s u2 p2 key now2 = none := by simp [login, hv2]
  exact ⟨l1, l2, l1.trans l2.symm,
    by simp [loginController, l1], by simp [loginController, l2]⟩

/-- Witness for `login_failures_indistinguishable`: one registered user
`alice`; `bob` is unknown, and `alice` logs in with a wrong password. -/
theorem login_failures_indistinguishable_witness :
    login ⟨[], [], [⟨"alice", hashpw "secret1" 3⟩]⟩ "bob" "pw111" "k" 0 = none ∧
    login ⟨[], [], [⟨"alice", hashpw "secret1" 3⟩]⟩ "alice" "wrong1" "k" 0 = none ∧
    login ⟨[], [], [⟨"alice", hashpw "secret1" 3⟩]⟩ "bob" "pw111" "k" 0
      = login ⟨[], [], [⟨"alice", hashpw "secret1" 3⟩]⟩ "alice" "wrong1" "k" 0 :=
  ⟨(login_failures_indistinguishable ⟨[], [], [⟨"alice", hashpw "secret1" 3⟩]⟩
      "bob" "pw111" "alice" "wrong1" "k" 0 0 rfl
      ⟨⟨"alice", hashpw "secret1" 3⟩, rfl, by decide⟩).1,
   (login_failures_indistinguishable ⟨[], [], [⟨"alice", hashpw "secret1" 3⟩]⟩
      "bob" "pw111" "alice" "wrong1" "k" 0 0 rfl
      ⟨⟨"alice", hashpw "secret1" 3⟩, rfl, by decide⟩).2.1,
   (login_failures_indistinguishable ⟨[], [], [⟨"alice", hashpw "secret1" 3⟩]⟩
      "bob" "pw111" "alice" "wrong1" "k" 0 0 rfl
      ⟨⟨"alice", hashpw "secret1" 3⟩, rfl, by decide⟩).2.2.1⟩

/-! ## Claims about reads, deletes and updates -/

/-- **C8.** Reading an employee whose stored `position_id` no longer
references an existing position still succeeds: the record is returned
with an empty `position_name` instead of the read failing. -/
theorem get_employee_dangling_position (s : DBState) (emp_id : Nat)
    (e : Employee) (he : empGetById s emp_id = some e)
    (hp : posGetById s e.position_id = none) :
    get_employee s emp_id
      = some { emp_id := e.emp_id, name := e.name, position_id := e.position_id,
               position_name := none } := by
  simp [get_employee, he, hp]

/-- Witness for `get_employee_dangling_position`: an employee referencing
position `5` while the positions table is empty. -/
theorem get_employee_dangling_position_witness :
    get_employee ⟨[], [⟨1, "Bob", 5⟩], []⟩ 1
      = some { emp_id := 1, name := "Bob", position_id := 5,
               position_name := none } :=
  get_employee_dangling_position ⟨[], [⟨1, "Bob", 5⟩], []⟩ 1 ⟨1, "Bob", 5⟩ rfl rfl

/-- **C9.** Position delete returns `true` exactly when a row with the
given id existed (and every such row is removed, all others kept),
returns `false` — not an error — for a non-existent id leaving the store
untouched, and never cascades: the employees and users tables are
unchanged in every case. -/
theorem delete_position_no_cascade (s : DBState) (pid : Nat) :
    ((delete_position s pid).1 = true ↔ ∃ p ∈ s.positions, p.position_id = pid) ∧
    (∀ p ∈ (delete_position s pid).2.positions, ¬ p.position_id = pid) ∧
    (∀ p ∈ s.positions, ¬ p.position_id = pid →
      p ∈ (delete_position s pid).2.positions) ∧
    (delete_position s pid).2.employees = s.employees ∧
    (delete_position s pid).2.users = s.users ∧
    ((delete_position s pid).1 = false → (delete_position s pid).2 = s) := by
  refine ⟨?_, ?_, ?_, rfl, rfl, ?_⟩
  · simp [delete_position, posDelete, List.any_eq_true]
  · intro p hp
    simp [delete_position, posDelete, List.mem_filter] at hp
    exact hp.2
  · intro p hp hne
    simp [delete_position, posDelete, List.mem_filter]
    exact ⟨hp, hne⟩
  · intro hfalse
    have hall : ∀ p ∈ s.positions, ¬ p.position_id = pid := by
      simpa [delete_position, posDelete, List.any_eq_false] using hfalse
    have hfil : s.positions.filter (fun p => !decide (p.position_id = pid))
        = s.positions := by
      rw [List.filter_eq_self]
      intro a ha
      simpa using hall a ha
    simp [delete_position, posDelete, hfil]

/-- Witness for `delete_position_no_cascade`: deleting the one existing
position leaves the employee that references it untouched. -/
theorem delete_position_no_cascade_witness :
    (delete_position ⟨[⟨5, "Engineer"⟩], [⟨1, "Bob", 5⟩], []⟩ 5).1 = true ∧
    (delete_position ⟨[⟨5, "Engineer"⟩], [⟨1, "Bob", 5⟩], []⟩ 5).2.employees
      = [⟨1, "Bob", 5⟩] :=
  ⟨(delete_position_no_cascade ⟨[⟨5, "Engineer"⟩], [⟨1, "Bob", 5⟩], []⟩ 5).1.mpr
     ⟨⟨5, "Engineer"⟩, by simp, rfl⟩,
   (delete_position_no_cascade ⟨[⟨5, "Engineer"⟩], [⟨1, "Bob", 5⟩], []⟩ 5).2.2.2.1⟩

/-- Any two employee rows sharing an `emp_id` (the primary key, so ids are
pairwise distinct) with one of them returned by `find?` are equal. -/
theorem find?_key_unique {l : List Employee} {k : Nat} {e x : Employee}
    (hnodup : (l.map (fun y => y.emp_id)).Nodup)
    (hfind : l.find? (fun y => y.emp_id = k) = some e)
    (hx : x ∈ l) (hk : x.emp_id = e.emp_id) : x = e :=
  List.inj_on_of_nodup_map hnodup hx (List.mem_of_find?_eq_some hfind) hk

/-- **C10.** Updating an existing employee with an empty patch (name and
`position_id` both omitted) re-writes the row with its own values: given
the primary-key uniqueness of `emp_id`, the store is left exactly as it
was, and the call returns the employee's current record enriched with
its position's name. -/
theorem update_employee_empty_patch (s : DBState) (eid : Nat) (e : Employee)
    (pos : Position)
    (hnodup : (s.employees.map (fun x => x.emp_id)).Nodup)
    (he : empGetById s eid = some e)
    (hp : posGetById s e.position_id = some pos) :
    update_employee s eid ⟨none, none⟩
      = (.ok (some { emp_id := e.emp_id, name := e.name,
                     position_id := e.position_id,
                     position_name := some pos.position_name }), s) := by
  have hmem : e ∈ s.employees := List.mem_of_find?_eq_some he
  have hany : s.employees.any (fun x => x.emp_id = e.emp_id) = true := by
    rw [List.any_eq_true]
    exact ⟨e, hmem, by simp⟩
  have hmap : s.employees.map (fun x =>
      if x.emp_id = e.emp_id then
        { x with name := e.name, position_id := e.position_id }
      else x) = s.employees := by
    apply map_eq_self_of_forall
    intro x hx
    by_cases hxe : x.emp_id = e.emp_id
    · have hxeq : x = e := find?_key_unique hnodup he hx hxe
      subst hxeq
      simp
    · simp [hxe]
  have hupd : empUpdate s e = (some e, s) := by
    simp [empUpdate, hany, hmap]
  simp [update_employee, he, hupd, hp]

/-- Witness for `update_employee_empty_patch`: one employee, one
position, empty patch. -/
theorem update_employee_empty_patch_witness :
    update_employee ⟨[⟨5, "Engineer"⟩], [⟨1, "Bob", 5⟩], []⟩ 1 ⟨none, none⟩
      = (.ok (some { emp_id := 1, name := "Bob", position_id := 5,
                     position_name := some "Engineer" }),
         ⟨[⟨5, "Engineer"⟩], [⟨1, "Bob", 5⟩], []⟩) :=
  update_employee_empty_patch ⟨[⟨5, "Engineer"⟩], [⟨1, "Bob", 5⟩], []⟩ 1
    ⟨1, "Bob", 5⟩ ⟨5, "Engineer"⟩ (by simp) rfl rfl

end DemoPy
